import Mathlib

/-! Verification of the skill-gap assessment and budgeted learning-path synthesis
core of the repository: `backend/services/skills_engine.py` and
`backend/services/learning_engine.py`, with the data model of
`backend/models/skills.py`.

External collaborators (AI Text Service, relational store, content store) are
modelled as explicit parameters describing their observable outcome for the
single call under analysis, exactly as the engines consume them. Python strings
are `String`, Python ints are `Int`, Python numeric scores (floats that only
ever hold small decimal values here) are `ℚ`. -/

namespace LearnAgent

/-- `backend/models/skills.py`, pydantic model `SkillGap`. The two
timestamp fields (`created_at`, `updated_at`) are omitted; distinct stored gaps
are distinguished by `id` (a fresh uuid4 per row). Pydantic equality is
field-wise structural equality, mirrored by the derived `DecidableEq`. -/
structure SkillGap where
  id : Option String := none
  user_id : String := ""
  skill_name : String
  category : Option String := none
  current_level : Option String := none
  target_level : Option String := none
  gap_size : Option String := none
  priority : String := "medium"
  urgency : String := "medium"
  business_impact : Option String := none
  learning_effort : Option String := none
  evidence_sources : List String := []
  recommended_actions : List String := []
  related_skills : List String := []
deriving DecidableEq, Repr

/-- `learning_engine.py`, dataclass `LearningRecommendation`. `priority_score`
is a Python float; the heuristic scores are small decimal values, modelled
exactly as `ℚ`. -/
structure LearningRecommendation where
  content_id : String
  title : String
  content_type : String
  difficulty : String
  estimated_duration : Int
  skills_covered : List String
  priority_score : ℚ
  reasoning : String := ""
  prerequisites : List String := []
  learning_objectives : List String := []
deriving DecidableEq, Repr

/-- `learning_engine.py`, dataclass `PersonalizedLearningPath`. The generated
uuid `path_id`, the wall-clock `created_at` and the opaque `success_metrics`
dict are omitted: they are not read by any property under study. -/
structure PersonalizedLearningPath where
  title : String
  description : String
  target_skills : List String
  difficulty : String
  estimated_duration : Int
  content_sequence : List LearningRecommendation
  prerequisites : List String
  learning_objectives : List String
  priority_order : List String
deriving DecidableEq, Repr

/-! ## Gap Prioritizer (`LearningEngine._prioritize_skill_gaps`)

The body serializes the gaps into a ranking prompt, calls
`self.ai_client.generate_response` once and runs `json.loads` on the reply.
Anything raised inside the `try` block (the AI call failing, the reply not
parsing as JSON, or an unhashable element in the parsed list) lands in the
`except` branch. A successfully parsed reply is consumed as a list of
skill-name strings. `RankingOutcome` records which of the two control paths
the collaborator behaviour selects. -/

inductive RankingOutcome where
  /-- the AI reply parsed as a list of skill-name strings -/
  | parsed (priority_order : List String)
  /-- the AI call raised, or its reply was unparsable -/
  | failure
deriving DecidableEq, Repr

/-- `gap_dict = {gap.skill_name: gap for gap in skill_gaps}`: a Python dict
comprehension keeps the last writer, so lookup returns the last gap carrying
the given `skill_name`. -/
def gap_dict_lookup (skill_gaps : List SkillGap) (name : String) : Option SkillGap :=
  skill_gaps.reverse.find? (fun g => g.skill_name == name)

/-- First reorder loop: `for skill_name in priority_order: if skill_name in
gap_dict: prioritized_gaps.append(gap_dict[skill_name])`. -/
def ranked_gaps (skill_gaps : List SkillGap) (priority_order : List String) : List SkillGap :=
  priority_order.filterMap (gap_dict_lookup skill_gaps)

/-- Second loop: `for gap in skill_gaps: if gap not in prioritized_gaps:
prioritized_gaps.append(gap)` — membership is Python `==` (structural
equality) against the growing list. -/
def append_remaining (skill_gaps : List SkillGap) (acc : List SkillGap) : List SkillGap :=
  skill_gaps.foldl (fun acc g => if g ∈ acc then acc else acc ++ [g]) acc

/-- Sort key of the fallback `sorted(skill_gaps, key=lambda x: x.gap_size,
reverse=True)`, as the code-point sequence Python compares (`str` comparison
is lexicographic on code points, the lexicographic order on `List Char`).
`gap_size` is `Optional[str]`; Python would raise a TypeError when the sort
compares a `None` key with a string, so the embedding is only exercised on
gaps whose `gap_size` is present (every theorem that touches the fallback
assumes so), where `getD` is exact. -/
def gap_size_key (g : SkillGap) : List Char :=
  (g.gap_size.getD "").toList

/-- The ordering realised by `sorted(..., key=..., reverse=True)`: a stable
sort placing larger string keys first. -/
def size_desc (a b : SkillGap) : Prop :=
  gap_size_key b ≤ gap_size_key a

instance : DecidableRel size_desc := fun a b =>
  inferInstanceAs (Decidable (gap_size_key b ≤ gap_size_key a))

instance : IsTotal SkillGap size_desc :=
  ⟨fun a b => le_total (gap_size_key b) (gap_size_key a)⟩

instance : IsTrans SkillGap size_desc :=
  ⟨fun _ _ _ h1 h2 => le_trans h2 h1⟩

/-- `LearningEngine._prioritize_skill_gaps` (learning_engine.py 219-280):
on a parsed ranking, reorder by the two loops above; on any exception from the
AI call or the parse, fall back to the stable descending sort on the
`gap_size` string (Python `sorted` with `reverse=True` is exactly the stable
sort under the reversed key comparison, realised by `insertionSort` under
`size_desc`). -/
def prioritize_skill_gaps (ai : RankingOutcome) (skill_gaps : List SkillGap) : List SkillGap :=
  match ai with
  | .parsed priority_order => append_remaining skill_gaps (ranked_gaps skill_gaps priority_order)
  | .failure => List.insertionSort size_desc skill_gaps

/-! ## Path Synthesizer (`LearningEngine._generate_learning_recommendations`
and friends, learning_engine.py 118-217, 282-331, 500-647)

Per-gap content candidates come from `_get_content_for_skill_gap`, a core
method modelled below (after the scorer it calls): it obtains raw content
items from the external collaborators (the Content Store search, or one
AI-generated item) and turns them into scored `LearningRecommendation`
values. Only the raw item list is a collaborator outcome; the scoring and
construction are core code. -/

/-- `max_duration_minutes = (max_duration_hours * 60) if max_duration_hours
else 480`: Python truthiness makes `0` fall through to the 480-minute
default exactly like `None`. -/
def budget_minutes (max_duration_hours : Option Int) : Int :=
  match max_duration_hours with
  | some h => if h = 0 then 480 else h * 60
  | none => 480

/-- Inner loop over one gap's candidates: `for rec in gap_recommendations: if
total_duration + rec.estimated_duration <= max_duration_minutes: append and
add; else: break`. The `break` leaves only this loop. -/
def select_from_gap (budget : Int) :
    List LearningRecommendation → Int → List LearningRecommendation →
    Int × List LearningRecommendation
  | [], total, acc => (total, acc)
  | c :: rest, total, acc =>
    if total + c.estimated_duration ≤ budget then
      select_from_gap budget rest (total + c.estimated_duration) (acc ++ [c])
    else
      (total, acc)

/-- Outer loop over the prioritized gaps: `for gap in prioritized_gaps: if
total_duration >= max_duration_minutes: break; ...`. -/
def select_gaps (getContent : SkillGap → List LearningRecommendation) (budget : Int) :
    List SkillGap → Int → List LearningRecommendation →
    Int × List LearningRecommendation
  | [], total, acc => (total, acc)
  | g :: rest, total, acc =>
    if budget ≤ total then (total, acc)
    else
      let p := select_from_gap budget (getContent g) total acc
      select_gaps getContent budget rest p.1 p.2

/-- Final global re-sort of `_generate_learning_recommendations`:
`recommendations.sort(key=lambda x: x.priority_score, reverse=True)` — the
stable descending sort on the score. -/
def score_desc (a b : LearningRecommendation) : Prop :=
  b.priority_score ≤ a.priority_score

instance : DecidableRel score_desc := fun a b =>
  inferInstanceAs (Decidable (b.priority_score ≤ a.priority_score))

instance : IsTotal LearningRecommendation score_desc :=
  ⟨fun a b => le_total b.priority_score a.priority_score⟩

instance : IsTrans LearningRecommendation score_desc :=
  ⟨fun _ _ _ h1 h2 => le_trans h2 h1⟩

/-- `difficulty_scores.get(rec.difficulty, 1)` of
`_determine_overall_difficulty`. -/
def difficulty_score (d : String) : ℚ :=
  if d = "beginner" then 1
  else if d = "intermediate" then 2
  else if d = "advanced" then 3
  else if d = "expert" then 4
  else 1

/-- `LearningEngine._determine_overall_difficulty` (599-612): the average of
the numeric difficulties (ℚ models the Python float average exactly on these
values). -/
def determine_overall_difficulty (recs : List LearningRecommendation) : String :=
  if recs = [] then "beginner"
  else
    let avg := (recs.map (fun c => difficulty_score c.difficulty)).sum / (recs.length : ℚ)
    if 3 ≤ avg then "advanced" else if 2 ≤ avg then "intermediate" else "beginner"

/-- Python prints `None` for a missing level inside the f-string of the
learning objective. -/
def level_str (level : Option String) : String :=
  level.getD "None"

/-- `LearningEngine._create_personalized_path` (551-590). It is called with
the ORIGINAL `skill_gaps` argument of
`generate_personalized_learning_path` (line 160), not with the prioritized
list; both `target_skills` and `priority_order` therefore use input order. -/
def create_personalized_path (current_role : String) (skill_gaps : List SkillGap)
    (recommendations : List LearningRecommendation) : PersonalizedLearningPath :=
  { title := "Personalized Learning Path for " ++ current_role
    description := "Customized learning journey to address " ++
      toString skill_gaps.length ++ " skill gaps"
    target_skills := skill_gaps.map (·.skill_name)
    difficulty := determine_overall_difficulty recommendations
    estimated_duration := (recommendations.map (·.estimated_duration)).sum
    content_sequence := recommendations
    prerequisites := []
    learning_objectives := (skill_gaps.take 5).map (fun g =>
      "Improve " ++ g.skill_name ++ " from " ++ level_str g.current_level ++
        " to " ++ level_str g.target_level)
    priority_order := skill_gaps.map (·.skill_name) }

/-- The fixed recommendation of `_create_default_learning_path` (614-647);
its generated uuid `content_id` is irrelevant to the properties and fixed. -/
def default_recommendation : LearningRecommendation :=
  { content_id := "default"
    title := "Product Management Fundamentals"
    content_type := "concept_explanation"
    difficulty := "beginner"
    estimated_duration := 15
    skills_covered := ["product_management", "strategy"]
    priority_score := 8
    reasoning := "Essential foundation for product managers"
    prerequisites := []
    learning_objectives := ["Understand core PM principles", "Learn strategic thinking"] }

/-- `LearningEngine._create_default_learning_path` (614-647), returned when
the gap list is empty; bypasses prioritization and budgeting entirely. -/
def create_default_learning_path : PersonalizedLearningPath :=
  { title := "Introduction to Product Management"
    description := "Essential learning path for new product managers"
    target_skills := ["product_management", "strategy", "user_research"]
    difficulty := "beginner"
    estimated_duration := 15
    content_sequence := [default_recommendation]
    prerequisites := []
    learning_objectives := ["Build foundational PM knowledge"]
    priority_order := ["product_management"] }

/-! ## Candidate scoring (`LearningEngine._calculate_priority_score`, 519-549) -/

/-- The slice of a content dict read by `_calculate_priority_score`
(`content.get` with defaults 15, None-ish). -/
structure ContentDict where
  estimated_duration : Option Int := none
  difficulty : Option String := none
  content_type : Option String := none
deriving DecidableEq, Repr

/-- `LearningEngine._calculate_priority_score`: `score` starts as the float
`0.0` and the first statement runs `score += skill_gap.gap_size * 10`.
`SkillGap.gap_size` is `Optional[str]` (models/skills.py line 78): for a
string, `* 10` is string repetition and adding the resulting `str` to a float
raises TypeError; for `None`, `None * 10` raises TypeError. Either way the
method raises before any bonus is computed, so its value is always an error. -/
def calculate_priority_score (_content : ContentDict) (skill_gap : SkillGap) :
    Except String ℚ :=
  match skill_gap.gap_size with
  | some _ => .error "TypeError: unsupported operand types for +=: float and str"
  | none => .error "TypeError: unsupported operand types for *: NoneType and int"

/-- The scoring formula as the specification states it (section 4.3 step 4d),
for comparison with `calculate_priority_score`: gap_size_weight*10 +
duration_bonus + difficulty_bonus + type_bonus with the small/medium/large
ordinals 1/2/3. -/
def priority_score_per_spec (content : ContentDict) (gap_size : String) : Int :=
  let weight : Int :=
    if gap_size = "small" then 1 else if gap_size = "medium" then 2
    else if gap_size = "large" then 3 else 0
  let d := content.estimated_duration.getD 15
  let duration_bonus : Int := if d ≤ 10 then 5 else if d ≤ 15 then 3 else 0
  let difficulty_bonus : Int :=
    if content.difficulty = some "intermediate" then 3
    else if content.difficulty = some "beginner" then 2 else 0
  let type_bonus : Int :=
    if content.content_type = some "tutorial" ∨
        content.content_type = some "practical_exercise" then 2 else 0
  weight * 10 + duration_bonus + difficulty_bonus + type_bonus

/-! ## Per-gap content retrieval (`LearningEngine._get_content_for_skill_gap`,
282-331)

The method determines a difficulty, queries the Content Store
(`_search_existing_content`) and, when that is empty, asks the AI Text
Service for one generated item (`_generate_micro_learning_content`, which
returns `[]` on any failure). Those two legs are external; the raw item list
they produce is the collaborator outcome. The method then loops over the
items, constructing a `LearningRecommendation` per item whose
`priority_score` is `_calculate_priority_score(content, skill_gap, ...)` —
and that call raises on every input (see `calculate_priority_score`), so the
first iteration lands in the method's `except` handler (329-331), which
returns `[]`. An empty item list skips the loop and returns `[]` as well. -/

/-- A raw content item as both `_search_existing_content` rows and
`_generate_micro_learning_content` output shape it: the keys the
recommendation constructor at 309-320 reads. `Option` marks keys read through
`.get` with a default; both producers in fact always set `id`. -/
structure ContentItem where
  id : Option String := none
  title : String
  content_type : String
  difficulty : String
  estimated_duration : Int
  skills_covered : List String
  reasoning : Option String := none
  prerequisites : Option (List String) := none
  learning_objectives : Option (List String) := none
deriving DecidableEq, Repr

/-- The slice of a content item `_calculate_priority_score` reads through
`.get`. -/
def content_scoring_view (c : ContentItem) : ContentDict :=
  { estimated_duration := some c.estimated_duration
    difficulty := some c.difficulty
    content_type := some c.content_type }

/-- The `LearningRecommendation(...)` constructor call at 309-320, given the
item and the score the scorer would have produced. (The `str(uuid.uuid4())`
default for a missing id is modelled by a fixed placeholder; both content
producers always set the id, so it is never exercised.) -/
def content_to_recommendation (c : ContentItem) (score : ℚ) : LearningRecommendation :=
  { content_id := c.id.getD "uuid4"
    title := c.title
    content_type := c.content_type
    difficulty := c.difficulty
    estimated_duration := c.estimated_duration
    skills_covered := c.skills_covered
    priority_score := score
    reasoning := c.reasoning.getD ""
    prerequisites := c.prerequisites.getD []
    learning_objectives := c.learning_objectives.getD [] }

/-- The `for content in existing_content` loop at 308-321: each iteration
evaluates the scorer; the first raise aborts the loop with that error
(Python's exception control flow, modelled in `Except`). -/
def build_gap_recommendations (skill_gap : SkillGap) :
    List ContentItem → Except String (List LearningRecommendation)
  | [] => .ok []
  | c :: rest =>
    match calculate_priority_score (content_scoring_view c) skill_gap with
    | .error e => .error e
    | .ok q =>
      match build_gap_recommendations skill_gap rest with
      | .error e => .error e
      | .ok recs => .ok (content_to_recommendation c q :: recs)

/-- `LearningEngine._get_content_for_skill_gap` (282-331), applied to the raw
items the collaborators yielded: build the scored recommendations and sort
them by score descending; any exception inside the `try` (in particular the
scorer's TypeError) is caught at 329-331 and turns the result into `[]`. -/
def get_content_for_skill_gap (candidates : List ContentItem) (skill_gap : SkillGap) :
    List LearningRecommendation :=
  match build_gap_recommendations skill_gap candidates with
  | .ok recs => List.insertionSort score_desc recs
  | .error _ => []

/-- `LearningEngine._determine_difficulty_level` (500-517); it only shapes
the Content Store query (an external concern) and is given here for
completeness. A `None` level would raise on `.lower()` and land in the same
per-gap handler. -/
def determine_difficulty_level (current_level target_level : String) : String :=
  let level_of : String → Option Int := fun s =>
    if s = "beginner" then some 1 else if s = "intermediate" then some 2
    else if s = "advanced" then some 3 else if s = "expert" then some 4 else none
  let current_num := (level_of current_level.toLower).getD 1
  let target_num := (level_of target_level.toLower).getD 2
  if 2 ≤ target_num - current_num then "advanced"
  else if target_num - current_num = 1 then "intermediate"
  else "beginner"

/-- `LearningEngine._generate_learning_recommendations` (173-217): prioritize
the gaps, run the budgeted selection over each gap's
`_get_content_for_skill_gap` result, then sort everything selected by
`priority_score` descending. `contentFor` is the collaborator outcome: the
raw items the Content Store search (or the single AI-generated item) yields
for each gap. -/
def generate_learning_recommendations (contentFor : SkillGap → List ContentItem)
    (ai : RankingOutcome) (skill_gaps : List SkillGap)
    (max_duration_hours : Option Int) : List LearningRecommendation :=
  List.insertionSort score_desc
    (select_gaps (fun g => get_content_for_skill_gap (contentFor g) g)
      (budget_minutes max_duration_hours)
      (prioritize_skill_gaps ai skill_gaps) 0 []).2

/-- `LearningEngine.generate_personalized_learning_path` (118-171) for a user
whose profile exists, with the gap list already supplied (`if not skill_gaps`
routes an empty list to the default path). Persistence happens after the path
is built and does not alter it. -/
def generate_personalized_learning_path (contentFor : SkillGap → List ContentItem)
    (ai : RankingOutcome) (skill_gaps : List SkillGap)
    (max_duration_hours : Option Int) (current_role : String) : PersonalizedLearningPath :=
  if skill_gaps = [] then create_default_learning_path
  else
    create_personalized_path current_role skill_gaps
      (generate_learning_recommendations contentFor ai skill_gaps max_duration_hours)

/-! ## Assessment Engine (`SkillsEngine`, skills_engine.py)

`analyze_work_artifacts` (322-365) marks the assessment in progress, runs
`_perform_ai_skills_analysis` (397-472) and persists the result. The AI Text
Service reply is consumed through `json.loads`; structures below model exactly
the fields the engine reads out of the parsed reply. -/

/-- One entry of the `skill_gaps` array of the parsed analysis; the fields
`_create_skill_gaps_from_analysis` (554-584) reads. `Option` marks a key the
dict may lack (`.get` with a default). -/
structure GapData where
  skill_name : String
  category : Option String := none
  gap_size : Option String := none
  priority : Option String := none
  business_impact : Option String := none
  recommended_actions : List String := []
deriving DecidableEq, Repr

/-- The `overall_assessment` object of the parsed analysis. -/
structure OverallAssessment where
  overall_score : Option ℚ := none
  confidence_level : Option ℚ := none
  summary : String := ""
  recommendations : List String := []
deriving DecidableEq, Repr

/-- The parsed structured analysis. Entries of `skills_demonstrated` are
abbreviated to the one field the engine reads from them (`skill_name`). -/
structure AnalysisResult where
  skills_demonstrated : List String := []
  skill_gaps : List GapData := []
  overall_assessment : OverallAssessment := {}
deriving DecidableEq, Repr

/-- `SkillsEngine._create_fallback_analysis` (474-487): the fixed dict
substituted when the AI reply fails to parse. A pure literal — building it
cannot raise. -/
def create_fallback_analysis : AnalysisResult :=
  { skills_demonstrated := []
    skill_gaps := []
    overall_assessment :=
      { overall_score := some 50
        confidence_level := some (3 / 10)
        summary := "Analysis incomplete due to technical issues"
        recommendations := ["Please try the analysis again or contact support"] } }

/-- Observable behaviour of the single AI Text Service call of
`_perform_ai_skills_analysis`: either the call fails (it raises, or returns a
response whose `.error` is set, which the engine turns into a raise), or it
returns text, which `json.loads` either parses (`some`) or rejects with
`JSONDecodeError` (`none`). -/
inductive AIOutcome where
  | failure (msg : String)
  | returned (parsed : Option AnalysisResult)

/-- `SkillsEngine._perform_ai_skills_analysis` (397-472): a call failure is
re-raised; a parse failure degrades to the fallback analysis; a parsed reply
is returned as-is. -/
def perform_ai_skills_analysis (ai : AIOutcome) : Except String AnalysisResult :=
  match ai with
  | .failure msg => .error msg
  | .returned none => .ok create_fallback_analysis
  | .returned (some a) => .ok a

/-- The `SkillGapCreate` record built per analysis gap by
`_create_skill_gaps_from_analysis` (570-579). -/
structure SkillGapCreateRec where
  user_id : String
  skill_name : String
  category : Option String
  gap_size : String
  priority : String
  business_impact : Option String
  recommended_actions : List String
  evidence_sources : List String
deriving DecidableEq, Repr

/-- Field mapping of `_create_skill_gaps_from_analysis`: `.get` defaults
`gap_size` and `priority` to "medium", `evidence_sources` is the one
assessment reference. -/
def mk_skill_gap_create (user_id assessment_id : String) (g : GapData) : SkillGapCreateRec :=
  { user_id := user_id
    skill_name := g.skill_name
    category := g.category
    gap_size := g.gap_size.getD "medium"
    priority := g.priority.getD "medium"
    business_impact := g.business_impact
    recommended_actions := g.recommended_actions
    evidence_sources := ["assessment_" ++ assessment_id] }

/-- Assessment lifecycle states (`AssessmentStatus`, models/skills.py). -/
inductive AssessmentStatus where
  | pending
  | in_progress
  | completed
  | failed
deriving DecidableEq, Repr

/-- Behaviour of the record store during one `analyze_work_artifacts` run:
whether the UPDATE inside `_update_assessment_with_analysis` raises, and
whether (and at which gap index) a `create_skill_gap` INSERT raises. `none`
means the operation succeeds. -/
structure StoreBehavior where
  assessment_update_error : Option String := none
  gap_insert_fails_from : Option Nat := none
deriving DecidableEq, Repr

/-- Everything observable after one `analyze_work_artifacts` call: the final
persisted status, which SkillGap rows were created, the persisted score and
confidence, and the returned value or re-raised error. -/
structure AnalyzeOutcome where
  status : AssessmentStatus
  gaps_created : List SkillGapCreateRec
  overall_score : Option ℚ
  confidence_level : Option ℚ
  result : Except String AnalysisResult

/-- `SkillsEngine.analyze_work_artifacts` (322-365). A raise out of
`_perform_ai_skills_analysis` or out of the assessment UPDATE is caught by the
outer handler, which sets the status to failed and re-raises. When the UPDATE
succeeds the run completes: `_create_skill_gaps_from_analysis` wraps its
gap-insert loop in its own try/except that only logs, so a failing insert
aborts the remaining inserts but never surfaces (the rows before the failing
index exist, the rest do not). -/
def analyze_work_artifacts (ai : AIOutcome) (store : StoreBehavior)
    (user_id assessment_id : String) : AnalyzeOutcome :=
  match perform_ai_skills_analysis ai with
  | .error e =>
    { status := .failed, gaps_created := [], overall_score := none
      confidence_level := none, result := .error e }
  | .ok a =>
    match store.assessment_update_error with
    | some e =>
      { status := .failed, gaps_created := [], overall_score := none
        confidence_level := none, result := .error e }
    | none =>
      let gaps := a.skill_gaps.map (mk_skill_gap_create user_id assessment_id)
      let created :=
        match store.gap_insert_fails_from with
        | some i => gaps.take i
        | none => gaps
      { status := .completed
        gaps_created := created
        overall_score := a.overall_assessment.overall_score
        confidence_level := a.overall_assessment.confidence_level
        result := .ok a }

/-- `LearningEngine._store_learning_path` (649-683) with
`_store_content_recommendation` (685-713): the path INSERT re-raises on
failure; each recommendation INSERT sits in its own try/except that only
logs, so a failing one is skipped and the loop continues. `path_insert_error`
is the store behaviour for the path row, `rec_insert_fails` for each
recommendation id; the result lists the recommendation ids actually stored. -/
def store_learning_path_recs (path_insert_error : Option String)
    (rec_insert_fails : String → Bool)
    (recs : List LearningRecommendation) : Except String (List String) :=
  match path_insert_error with
  | some e => .error e
  | none => .ok ((recs.filter (fun c => !rec_insert_fails c.content_id)).map (·.content_id))

/-! ## Skills taxonomy creation (`SkillsEngine.create_skills_taxonomy_entry`,
skills_engine.py 108-173) -/

/-- A `skills_taxonomy` row; `is_active BOOLEAN DEFAULT 1` in the schema
(database/init_db.py), so a fresh insert is active. List-valued columns are
not read by the creation path and are omitted. -/
structure TaxonomyRow where
  id : String
  skill_name : String
  category : String
  is_active : Bool := true
deriving DecidableEq, Repr

/-- The creation payload fields the insert reads. -/
structure TaxonomyCreate where
  skill_name : String
  category : String
deriving DecidableEq, Repr

/-- The row the INSERT of `create_skills_taxonomy_entry` produces for a fresh
uuid `newId`. -/
def mk_taxonomy_row (newId : String) (d : TaxonomyCreate) : TaxonomyRow :=
  { id := newId, skill_name := d.skill_name, category := d.category, is_active := true }

/-- `SkillsEngine.get_skills_taxonomy_entry` (175-183):
`SELECT * WHERE id = ? AND is_active = 1`, first row or none. -/
def get_skills_taxonomy_entry (store : List TaxonomyRow) (taxonomy_id : String) :
    Option TaxonomyRow :=
  store.find? (fun r => r.id == taxonomy_id && r.is_active)

/-- `SkillsEngine.create_skills_taxonomy_entry` (108-173): `SELECT * WHERE
skill_name = ?`; when a row exists, return its parse and skip creation; else
INSERT a fresh row and return it through `get_skills_taxonomy_entry`. Result:
the store after the call and the returned entry. -/
def create_skills_taxonomy_entry (store : List TaxonomyRow) (newId : String)
    (d : TaxonomyCreate) : List TaxonomyRow × Option TaxonomyRow :=
  match store.find? (fun r => r.skill_name == d.skill_name) with
  | some row => (store, some row)
  | none =>
    let store2 := store ++ [mk_taxonomy_row newId d]
    (store2, get_skills_taxonomy_entry store2 newId)

/-! ## Test fixtures

Concrete values used by counterexamples and witnesses. -/

/-- A gap with a large gap_size. -/
def gapA : SkillGap :=
  { id := some "g1", user_id := "u", skill_name := "a", gap_size := some "large"
    current_level := some "beginner", target_level := some "advanced" }

/-- A gap with a small gap_size. -/
def gapB : SkillGap :=
  { id := some "g2", user_id := "u", skill_name := "b", gap_size := some "small"
    current_level := some "beginner", target_level := some "intermediate" }

/-- A 45-minute recommendation covering skill "a" (the shape of the default
path's fixed recommendation, used to exercise the store model). -/
def recA : LearningRecommendation :=
  { content_id := "ca", title := "A", content_type := "tutorial"
    difficulty := "intermediate", estimated_duration := 45
    skills_covered := ["a"], priority_score := 9 }

/-- A raw Content Store row for skill "a": a realizable collaborator
outcome (any row of the learning_content table with these columns). -/
def itemA : ContentItem :=
  { id := some "c1", title := "Intro to A", content_type := "tutorial"
    difficulty := "intermediate", estimated_duration := 45
    skills_covered := ["a"] }

/-- An analysis gap entry as scenario A of the spec describes. -/
def gapDataEx : GapData :=
  { skill_name := "Advanced JavaScript", gap_size := some "medium", priority := some "high" }

/-- A parsed analysis carrying one skill gap. -/
def analysisEx : AnalysisResult :=
  { skill_gaps := [gapDataEx] }

/-- A taxonomy creation payload. -/
def taxEx : TaxonomyCreate :=
  { skill_name := "Product Strategy", category := "Product Management" }

/-! ## Properties of the Gap Prioritizer -/

theorem gap_dict_lookup_eq_some {skill_gaps : List SkillGap} {n : String} {g : SkillGap}
    (h : gap_dict_lookup skill_gaps n = some g) : g ∈ skill_gaps ∧ g.skill_name = n := by
  unfold gap_dict_lookup at h
  have hm := List.mem_of_find?_eq_some h
  have hp := List.find?_some h
  refine ⟨List.mem_reverse.mp hm, ?_⟩
  simpa using hp

theorem ranked_gaps_nodup {skill_gaps : List SkillGap} {order : List String}
    (ho : order.Nodup) : (ranked_gaps skill_gaps order).Nodup := by
  unfold ranked_gaps
  refine List.Nodup.filterMap ?_ ho
  intro a a' b hb hb'
  rw [Option.mem_def] at hb hb'
  have h1 := (gap_dict_lookup_eq_some hb).2
  have h2 := (gap_dict_lookup_eq_some hb').2
  rw [← h1, ← h2]

theorem ranked_gaps_subset {skill_gaps : List SkillGap} {order : List String} {g : SkillGap}
    (h : g ∈ ranked_gaps skill_gaps order) : g ∈ skill_gaps := by
  unfold ranked_gaps at h
  obtain ⟨a, _, hg⟩ := List.mem_filterMap.mp h
  exact (gap_dict_lookup_eq_some hg).1

/-- On a duplicate-free gap list the second loop of `_prioritize_skill_gaps`
appends exactly the gaps missing from the accumulator, in order. -/
theorem append_remaining_eq :
    ∀ (skill_gaps : List SkillGap) (acc : List SkillGap), skill_gaps.Nodup →
      append_remaining skill_gaps acc =
        acc ++ skill_gaps.filter (fun g => decide (g ∉ acc)) := by
  intro skill_gaps
  induction skill_gaps with
  | nil => intro acc _; simp [append_remaining]
  | cons g rest ih =>
    intro acc hnd
    rw [List.nodup_cons] at hnd
    obtain ⟨hg, hrest⟩ := hnd
    unfold append_remaining
    rw [List.foldl_cons]
    by_cases hmem : g ∈ acc
    · rw [if_pos hmem]
      have hrec := ih acc hrest
      unfold append_remaining at hrec
      rw [hrec, List.filter_cons]
      simp [hmem]
    · rw [if_neg hmem]
      have hrec := ih (acc ++ [g]) hrest
      unfold append_remaining at hrec
      rw [hrec]
      have hfil : rest.filter (fun x => decide (x ∉ acc ++ [g])) =
          rest.filter (fun x => decide (x ∉ acc)) := by
        apply List.filter_congr
        intro x hx
        have hxg : x ≠ g := fun e => hg (e ▸ hx)
        simp [List.mem_append, hxg]
      rw [hfil, List.filter_cons]
      simp [hmem, List.append_assoc]

/-- The reorder of `_prioritize_skill_gaps` permutes duplicate-free input when
seeded with a duplicate-free accumulator drawn from the input. -/
theorem append_remaining_perm {skill_gaps acc : List SkillGap}
    (hnd : skill_gaps.Nodup) (hacc : acc.Nodup)
    (hsub : ∀ g ∈ acc, g ∈ skill_gaps) :
    (append_remaining skill_gaps acc).Perm skill_gaps := by
  rw [append_remaining_eq skill_gaps acc hnd]
  have hnd2 : (acc ++ skill_gaps.filter (fun g => decide (g ∉ acc))).Nodup := by
    rw [List.nodup_append]
    refine ⟨hacc, hnd.filter _, ?_⟩
    intro a ha hafil
    have hnot := (List.mem_filter.mp hafil).2
    simp only [decide_eq_true_eq] at hnot
    exact hnot ha
  rw [List.perm_ext_iff_of_nodup hnd2 hnd]
  intro a
  constructor
  · intro h
    rcases List.mem_append.mp h with h1 | h2
    · exact hsub a h1
    · exact (List.mem_filter.mp h2).1
  · intro h
    by_cases hmem : a ∈ acc
    · exact List.mem_append.mpr (Or.inl hmem)
    · exact List.mem_append.mpr (Or.inr (List.mem_filter.mpr ⟨h, by simpa using hmem⟩))

/-- C1 (amended): prioritization returns a permutation of the input gaps on
every collaborator behaviour, provided the gaps are pairwise distinct and a
successfully parsed ranking contains no repeated skill name (and, for the
fallback, every gap carries a gap_size, since Python raises on a None sort
key). A ranking that repeats a matching skill name appends the matched gap
once per occurrence and breaks the permutation (see the counterexample). -/
theorem prioritize_skill_gaps_perm (ai : RankingOutcome) (skill_gaps : List SkillGap)
    (hnd : skill_gaps.Nodup)
    (ho : ∀ order, ai = .parsed order → order.Nodup)
    (_hsz : ∀ g ∈ skill_gaps, g.gap_size.isSome) :
    (prioritize_skill_gaps ai skill_gaps).Perm skill_gaps := by
  cases ai with
  | parsed order =>
    have honod := ho order rfl
    unfold prioritize_skill_gaps
    exact append_remaining_perm hnd (ranked_gaps_nodup honod)
      (fun g hg => ranked_gaps_subset hg)
  | failure =>
    unfold prioritize_skill_gaps
    exact List.perm_insertionSort size_desc skill_gaps

/-- Witness for `prioritize_skill_gaps_perm` at a concrete input. -/
theorem prioritize_skill_gaps_perm_witness :
    (prioritize_skill_gaps (.parsed ["b"]) [gapA, gapB]).Perm [gapA, gapB] :=
  prioritize_skill_gaps_perm (.parsed ["b"]) [gapA, gapB] (by decide)
    (fun order h => by cases h; decide) (by decide)

/-- C1 counterexample: a successful AI ranking that repeats a present skill
name makes `_prioritize_skill_gaps` append the same gap twice, so the output
is not a permutation of the input (here: one gap in, that gap twice out). -/
theorem prioritize_skill_gaps_not_perm :
    prioritize_skill_gaps (.parsed ["a", "a"]) [gapA] = [gapA, gapA] ∧
    ¬ (prioritize_skill_gaps (.parsed ["a", "a"]) [gapA]).Perm [gapA] := by
  have heq : prioritize_skill_gaps (.parsed ["a", "a"]) [gapA] = [gapA, gapA] := by decide
  refine ⟨heq, fun h => ?_⟩
  have hlen := h.length_eq
  rw [heq] at hlen
  simp at hlen

/-! ## The fallback ordering (C4) -/

/-- C4 counterexample: with one large and one small gap and a failing AI call,
the fallback returns the SMALL gap first. `sorted(..., key=lambda x:
x.gap_size, reverse=True)` compares the strings, and "small" > "medium" >
"large" lexicographically, so descending string order is smallest gap first —
the opposite of the claimed large > medium > small ordering. -/
theorem fallback_order_not_largest_first :
    prioritize_skill_gaps .failure [gapA, gapB] = [gapB, gapA] ∧
    prioritize_skill_gaps .failure [gapA, gapB] ≠ [gapA, gapB] := by decide

/-- C4 (amended): on call failure or an unparsable response the fallback is
the deterministic stable sort of the gaps by their gap_size STRING in
descending lexicographic order (so "small" sorts before "medium" before
"large"): the output is a permutation of the input, consecutive elements have
non-increasing string keys, and the sort consults nothing but the gap list —
no second AI Text Service call can influence it. -/
theorem fallback_sorted_desc_by_string (skill_gaps : List SkillGap)
    (_hsz : ∀ g ∈ skill_gaps, g.gap_size.isSome) :
    (prioritize_skill_gaps .failure skill_gaps).Perm skill_gaps ∧
    List.Sorted size_desc (prioritize_skill_gaps .failure skill_gaps) := by
  constructor
  · exact List.perm_insertionSort size_desc skill_gaps
  · exact List.sorted_insertionSort size_desc skill_gaps

/-- Witness for `fallback_sorted_desc_by_string` at a concrete input. -/
theorem fallback_sorted_desc_by_string_witness :
    (prioritize_skill_gaps .failure [gapA, gapB]).Perm [gapA, gapB] ∧
    List.Sorted size_desc (prioritize_skill_gaps .failure [gapA, gapB]) :=
  fallback_sorted_desc_by_string [gapA, gapB] (by decide)

/-! ## The budgeted selection loop (C2, C6, C8) -/

/-- Summed estimated duration of a recommendation list. -/
def dur_sum (l : List LearningRecommendation) : Int :=
  (l.map (·.estimated_duration)).sum

theorem dur_sum_append (l : List LearningRecommendation) (c : LearningRecommendation) :
    dur_sum (l ++ [c]) = dur_sum l + c.estimated_duration := by
  simp [dur_sum]

/-- The inner candidate loop keeps the running total equal to the summed
duration of the accumulated selection. -/
theorem select_from_gap_sum (budget : Int) :
    ∀ (cs : List LearningRecommendation) (total : Int) (acc : List LearningRecommendation),
      total = dur_sum acc →
      (select_from_gap budget cs total acc).1 = dur_sum (select_from_gap budget cs total acc).2 := by
  intro cs
  induction cs with
  | nil => intro total acc h; simpa [select_from_gap] using h
  | cons c rest ih =>
    intro total acc h
    unfold select_from_gap
    by_cases hfit : total + c.estimated_duration ≤ budget
    · rw [if_pos hfit]
      exact ih _ _ (by rw [dur_sum_append, h])
    · rw [if_neg hfit]
      exact h

/-- The inner candidate loop never pushes the total above
`max budget 0` (a candidate is appended only when the new total is at most
the budget, and a skipped candidate leaves the total unchanged). -/
theorem select_from_gap_le (budget : Int) :
    ∀ (cs : List LearningRecommendation) (total : Int) (acc : List LearningRecommendation),
      total ≤ max budget 0 →
      (select_from_gap budget cs total acc).1 ≤ max budget 0 := by
  intro cs
  induction cs with
  | nil => intro total acc h; simpa [select_from_gap] using h
  | cons c rest ih =>
    intro total acc h
    unfold select_from_gap
    by_cases hfit : total + c.estimated_duration ≤ budget
    · rw [if_pos hfit]
      exact ih _ _ (le_trans hfit (le_max_left budget 0))
    · rw [if_neg hfit]
      exact h

/-- The outer per-gap loop keeps the running total equal to the summed
duration of the accumulated selection. -/
theorem select_gaps_sum (getContent : SkillGap → List LearningRecommendation) (budget : Int) :
    ∀ (gs : List SkillGap) (total : Int) (acc : List LearningRecommendation),
      total = dur_sum acc →
      (select_gaps getContent budget gs total acc).1 =
        dur_sum (select_gaps getContent budget gs total acc).2 := by
  intro gs
  induction gs with
  | nil => intro total acc h; simpa [select_gaps] using h
  | cons g rest ih =>
    intro total acc h
    unfold select_gaps
    by_cases hstop : budget ≤ total
    · rw [if_pos hstop]; exact h
    · rw [if_neg hstop]
      exact ih _ _ (select_from_gap_sum budget (getContent g) total acc h)

/-- The outer per-gap loop never pushes the total above `max budget 0`. -/
theorem select_gaps_le (getContent : SkillGap → List LearningRecommendation) (budget : Int) :
    ∀ (gs : List SkillGap) (total : Int) (acc : List LearningRecommendation),
      total ≤ max budget 0 →
      (select_gaps getContent budget gs total acc).1 ≤ max budget 0 := by
  intro gs
  induction gs with
  | nil => intro total acc h; simpa [select_gaps] using h
  | cons g rest ih =>
    intro total acc h
    unfold select_gaps
    by_cases hstop : budget ≤ total
    · rw [if_pos hstop]; exact h
    · rw [if_neg hstop]
      exact ih _ _ (select_from_gap_le budget (getContent g) total acc h)

/-- The scorer fails on every input (both `gap_size` shapes raise). -/
theorem calculate_priority_score_error (content : ContentDict) (skill_gap : SkillGap) :
    ∃ e, calculate_priority_score content skill_gap = .error e := by
  unfold calculate_priority_score
  cases skill_gap.gap_size <;> exact ⟨_, rfl⟩

/-- `_get_content_for_skill_gap` returns `[]` for EVERY collaborator outcome
and every gap: an empty item list skips the scoring loop, and a non-empty one
hits the scorer's TypeError on its first iteration, which the handler at
329-331 turns into `[]`. The recommendation pipeline is dead code. -/
theorem get_content_for_skill_gap_eq_nil (candidates : List ContentItem)
    (skill_gap : SkillGap) :
    get_content_for_skill_gap candidates skill_gap = [] := by
  cases candidates with
  | nil => rfl
  | cons c rest =>
    unfold get_content_for_skill_gap build_gap_recommendations
    obtain ⟨e, he⟩ := calculate_priority_score_error (content_scoring_view c) skill_gap
    rw [he]

/-- The budgeted selection loop is the identity when every gap's candidate
list is empty. -/
theorem select_gaps_no_content (getContent : SkillGap → List LearningRecommendation)
    (budget : Int) (gs : List SkillGap) (total : Int)
    (acc : List LearningRecommendation) (hc : ∀ g, getContent g = []) :
    select_gaps getContent budget gs total acc = (total, acc) := by
  induction gs generalizing total acc with
  | nil => rfl
  | cons g rest ih =>
    unfold select_gaps
    by_cases hstop : budget ≤ total
    · rw [if_pos hstop]
    · rw [if_neg hstop, hc g]
      exact ih total acc

/-- In the current program `_generate_learning_recommendations` returns `[]`
for every Content Store content, AI behaviour, gap list and budget. -/
theorem generate_learning_recommendations_eq_nil
    (contentFor : SkillGap → List ContentItem) (ai : RankingOutcome)
    (skill_gaps : List SkillGap) (max_duration_hours : Option Int) :
    generate_learning_recommendations contentFor ai skill_gaps max_duration_hours = [] := by
  unfold generate_learning_recommendations
  rw [select_gaps_no_content _ _ _ _ _
    (fun g => get_content_for_skill_gap_eq_nil (contentFor g) g)]
  rfl

/-- C2 counterexample: a user with no skill gaps calling synthesize with
`max_duration_hours = 0` receives the fixed default path, whose single
recommendation lasts 15 minutes — exceeding the claimed budget of
`0 * 60 = 0` minutes. The default path bypasses the budgeting logic entirely,
so no budget is applied to it. -/
theorem default_path_ignores_budget :
    (generate_personalized_learning_path (fun _ => []) .failure [] (some 0)
        "PM").estimated_duration = 15 ∧
    ¬ ((generate_personalized_learning_path (fun _ => []) .failure [] (some 0)
        "PM").estimated_duration ≤ (0 : Int) * 60) := by
  decide

/-- C2 (amended): for every NON-empty gap list the budget bound holds, but
only degenerately: the scoring TypeError (see
`get_content_for_skill_gap_eq_nil`) empties every candidate list, so the
path's content_sequence is empty and its summed duration 0, which is at most
the positive part of the truthiness-corrected budget (`max_duration_hours*60`
when the hours are given and non-zero, else 480). The claimed bound fails
through the empty-gap default path, which ignores the budget (see the
counterexample). -/
theorem synthesized_path_content_empty
    (contentFor : SkillGap → List ContentItem) (ai : RankingOutcome)
    (skill_gaps : List SkillGap) (max_duration_hours : Option Int) (role : String)
    (hne : skill_gaps ≠ []) :
    (generate_personalized_learning_path contentFor ai skill_gaps
        max_duration_hours role).content_sequence = [] ∧
    (generate_personalized_learning_path contentFor ai skill_gaps
        max_duration_hours role).estimated_duration = 0 ∧
    (generate_personalized_learning_path contentFor ai skill_gaps
        max_duration_hours role).estimated_duration ≤
      max (budget_minutes max_duration_hours) 0 := by
  have hnil := generate_learning_recommendations_eq_nil contentFor ai skill_gaps
    max_duration_hours
  unfold generate_personalized_learning_path
  rw [if_neg hne]
  refine ⟨?_, ?_, ?_⟩
  · simp [create_personalized_path, hnil]
  · simp [create_personalized_path, hnil]
  · have h0 : (create_personalized_path role skill_gaps
        (generate_learning_recommendations contentFor ai skill_gaps
          max_duration_hours)).estimated_duration = 0 := by
      simp [create_personalized_path, hnil]
    rw [h0]
    exact le_max_right _ 0

/-- Witness for `synthesized_path_content_empty` at a concrete input: even
with a matching row in the Content Store, nothing is selected. -/
theorem synthesized_path_content_empty_witness :
    (generate_personalized_learning_path (fun _ => [itemA]) .failure
        [gapA, gapB] (some 1) "PM").content_sequence = [] ∧
    (generate_personalized_learning_path (fun _ => [itemA]) .failure
        [gapA, gapB] (some 1) "PM").estimated_duration = 0 ∧
    (generate_personalized_learning_path (fun _ => [itemA]) .failure
        [gapA, gapB] (some 1) "PM").estimated_duration ≤
      max (budget_minutes (some 1)) 0 :=
  synthesized_path_content_empty (fun _ => [itemA]) .failure [gapA, gapB]
    (some 1) "PM" (by decide)

/-- C8 counterexample: two stored gaps and a failing ranking call — the
fallback prioritizes gapB (gap_size "small") before gapA ("large"), yet the
returned path's priority_order is the ORIGINAL input order ["a", "b"], not
the prioritized order ["b", "a"]: `_create_personalized_path` is called with
the original `skill_gaps` (line 160) and line 587 maps over that list. -/
theorem priority_order_not_prioritized_order :
    prioritize_skill_gaps .failure [gapA, gapB] = [gapB, gapA] ∧
    (generate_personalized_learning_path (fun _ => []) .failure [gapA, gapB]
        none "PM").priority_order = ["a", "b"] ∧
    (generate_personalized_learning_path (fun _ => []) .failure [gapA, gapB]
        none "PM").priority_order ≠ ["b", "a"] := by
  decide

/-- C8 (amended): in every path returned for a non-empty gap list,
priority_order lists the skill_names of the INPUT gaps in their original
order — not the prioritized order — and the content_sequence is empty in the
current program (every candidate dies in the scorer, see
`get_content_for_skill_gap_eq_nil`), which makes the claimed gap-major
content ordering vacuous. -/
theorem path_priority_order_is_input_order
    (contentFor : SkillGap → List ContentItem) (ai : RankingOutcome)
    (skill_gaps : List SkillGap) (max_duration_hours : Option Int) (role : String)
    (hne : skill_gaps ≠ []) :
    (generate_personalized_learning_path contentFor ai skill_gaps
        max_duration_hours role).priority_order = skill_gaps.map (·.skill_name) ∧
    (generate_personalized_learning_path contentFor ai skill_gaps
        max_duration_hours role).content_sequence = [] := by
  unfold generate_personalized_learning_path
  rw [if_neg hne]
  exact ⟨rfl, generate_learning_recommendations_eq_nil contentFor ai skill_gaps
    max_duration_hours⟩

/-- Witness for `path_priority_order_is_input_order` at a concrete input. -/
theorem path_priority_order_is_input_order_witness :
    (generate_personalized_learning_path (fun _ => [itemA]) .failure
        [gapA, gapB] none "PM").priority_order =
      ([gapA, gapB].map (·.skill_name)) ∧
    (generate_personalized_learning_path (fun _ => [itemA]) .failure
        [gapA, gapB] none "PM").content_sequence = [] :=
  path_priority_order_is_input_order (fun _ => [itemA]) .failure [gapA, gapB]
    none "PM" (by decide)

/-! ## Candidate scoring (C5) -/

/-- A content dict matching the C5 inputs: 10 minutes, intermediate,
tutorial. -/
def contentEx : ContentDict :=
  { estimated_duration := some 10, difficulty := some "intermediate"
    content_type := some "tutorial" }

/-- C5: the scoring computation always raises. With gap_size the string
"small" and a 10-minute intermediate tutorial, the spec formula gives
1*10 + 5 + 3 + 2 = 20, but `_calculate_priority_score` raises a TypeError on
its first statement (`0.0 += "small" * 10` adds a str to a float), so no
candidate ever receives a score — `_get_content_for_skill_gap` catches the
raise and returns an empty candidate list instead. -/
theorem calculate_priority_score_raises :
    calculate_priority_score contentEx gapB =
      .error "TypeError: unsupported operand types for +=: float and str" ∧
    priority_score_per_spec contentEx "small" = 20 ∧
    (∀ content : ContentDict, ∀ g : SkillGap,
      ∀ q : ℚ, calculate_priority_score content g ≠ .ok q) := by
  refine ⟨rfl, by decide, ?_⟩
  intro content g q h
  unfold calculate_priority_score at h
  cases hg : g.gap_size with
  | none => rw [hg] at h; exact Except.noConfusion h
  | some s => rw [hg] at h; exact Except.noConfusion h

/-! ## Assessment engine error semantics (C3, C7, C9) -/

/-- C3: failure handling of `analyze_work_artifacts` is asymmetric. A raise
out of the AI Text Service call marks the assessment failed, creates no
SkillGap rows and re-raises the same error to the caller, whatever the record
store would have done; a reply that fails to parse still completes the run
through the fallback analysis and returns normally. -/
theorem analyze_failure_asymmetry :
    (∀ (msg : String) (store : StoreBehavior) (u a : String),
      (analyze_work_artifacts (.failure msg) store u a).status = .failed ∧
      (analyze_work_artifacts (.failure msg) store u a).gaps_created = [] ∧
      (analyze_work_artifacts (.failure msg) store u a).result = .error msg) ∧
    (∀ u a : String,
      (analyze_work_artifacts (.returned none) {} u a).status = .completed ∧
      (analyze_work_artifacts (.returned none) {} u a).result =
        .ok create_fallback_analysis) := by
  exact ⟨fun msg store u a => ⟨rfl, rfl, rfl⟩, fun u a => ⟨rfl, rfl⟩⟩

/-- C7: an unparsable AI reply during analyze yields exactly the fallback
outcome: status completed, no SkillGap rows (the fallback has empty
skills_demonstrated and skill_gaps), overall_score 50, confidence_level 0.3,
and a normal return (the fallback is a pure literal, so producing it cannot
raise). -/
theorem analyze_parse_failure_completes :
    ∀ u a : String,
      analyze_work_artifacts (.returned none) {} u a =
        { status := .completed, gaps_created := [], overall_score := some 50
          confidence_level := some (3 / 10)
          result := .ok create_fallback_analysis } ∧
      create_fallback_analysis.skills_demonstrated = [] ∧
      create_fallback_analysis.skill_gaps = [] :=
  fun _ _ => ⟨rfl, rfl, rfl⟩

/-- C9 counterexample: store failures inside the two cited helpers do NOT
propagate. A gap-insert raise during `_create_skill_gaps_from_analysis` is
caught and logged: the run still returns normally with status completed (and
silently created no rows); a failing recommendation INSERT inside
`_store_content_recommendation` is likewise swallowed. -/
theorem store_errors_swallowed :
    (analyze_work_artifacts (.returned (some analysisEx))
        { gap_insert_fails_from := some 0 } "u" "as1").status = .completed ∧
    (analyze_work_artifacts (.returned (some analysisEx))
        { gap_insert_fails_from := some 0 } "u" "as1").result = .ok analysisEx ∧
    (analyze_work_artifacts (.returned (some analysisEx))
        { gap_insert_fails_from := some 0 } "u" "as1").gaps_created = [] ∧
    analysisEx.skill_gaps ≠ [] ∧
    store_learning_path_recs none (fun _ => true) [recA] = .ok [] :=
  ⟨rfl, rfl, rfl, by decide, rfl⟩

/-- C9 (amended): store errors propagate unchanged from the assessment UPDATE
of analyze and from the path INSERT of synthesize, but the SkillGap-row
inserts of `_create_skill_gaps_from_analysis` and the per-recommendation
inserts of `_store_content_recommendation` sit inside their own try/except
blocks that only log: their failures are swallowed and the operation still
returns normally. -/
theorem store_error_propagation :
    (∀ (ai : AIOutcome) (a : AnalysisResult) (sb : StoreBehavior) (u aid e : String),
      perform_ai_skills_analysis ai = .ok a →
      sb.assessment_update_error = some e →
      (analyze_work_artifacts ai sb u aid).result = .error e ∧
      (analyze_work_artifacts ai sb u aid).status = .failed) ∧
    (∀ (ai : AIOutcome) (a : AnalysisResult) (sb : StoreBehavior) (u aid : String),
      perform_ai_skills_analysis ai = .ok a →
      sb.assessment_update_error = none →
      (analyze_work_artifacts ai sb u aid).status = .completed ∧
      (analyze_work_artifacts ai sb u aid).result = .ok a) ∧
    (∀ (e : String) (rf : String → Bool) (recs : List LearningRecommendation),
      store_learning_path_recs (some e) rf recs = .error e) ∧
    (∀ (rf : String → Bool) (recs : List LearningRecommendation),
      ∃ stored, store_learning_path_recs none rf recs = .ok stored) := by
  refine ⟨?_, ?_, ?_, ?_⟩
  · intro ai a sb u aid e hai hsb
    unfold analyze_work_artifacts
    rw [hai, hsb]
    exact ⟨rfl, rfl⟩
  · intro ai a sb u aid hai hsb
    unfold analyze_work_artifacts
    rw [hai, hsb]
    cases sb.gap_insert_fails_from <;> exact ⟨rfl, rfl⟩
  · intro e rf recs
    rfl
  · intro rf recs
    exact ⟨_, rfl⟩

/-- Witness for `store_error_propagation` at a concrete input. -/
theorem store_error_propagation_witness :
    (analyze_work_artifacts (.returned (some analysisEx))
        { assessment_update_error := some "store unavailable" } "u" "as1").result =
      .error "store unavailable" :=
  (store_error_propagation.1 (.returned (some analysisEx)) analysisEx
    { assessment_update_error := some "store unavailable" } "u" "as1"
    "store unavailable" rfl rfl).1

/-! ## Taxonomy creation idempotence (C10) -/

/-- C10: `create_skills_taxonomy_entry` is idempotent on skill_name. When a
row with the requested skill_name already exists, the store is returned
untouched and the first matching row is returned; in particular creating the
same skill twice into a store that lacked it inserts on the first call only,
returns that inserted row from the second call, and leaves exactly one row
with that skill_name. -/
theorem create_taxonomy_idempotent :
    (∀ (store : List TaxonomyRow) (newId : String) (d : TaxonomyCreate) (row : TaxonomyRow),
      store.find? (fun r => r.skill_name == d.skill_name) = some row →
      create_skills_taxonomy_entry store newId d = (store, some row)) ∧
    (∀ (store : List TaxonomyRow) (d : TaxonomyCreate) (id1 id2 : String),
      (∀ r ∈ store, r.skill_name ≠ d.skill_name) →
      (create_skills_taxonomy_entry
          ((create_skills_taxonomy_entry store id1 d).1) id2 d).1 =
        (create_skills_taxonomy_entry store id1 d).1 ∧
      (create_skills_taxonomy_entry
          ((create_skills_taxonomy_entry store id1 d).1) id2 d).2 =
        some (mk_taxonomy_row id1 d) ∧
      ((create_skills_taxonomy_entry store id1 d).1.countP
          (fun r => r.skill_name == d.skill_name)) = 1) := by
  constructor
  · intro store newId d row hfind
    unfold create_skills_taxonomy_entry
    rw [hfind]
  · intro store d id1 id2 habs
    have hnone : store.find? (fun r => r.skill_name == d.skill_name) = none := by
      rw [List.find?_eq_none]
      intro x hx
      simpa using habs x hx
    have hstep1 : (create_skills_taxonomy_entry store id1 d).1 =
        store ++ [mk_taxonomy_row id1 d] := by
      unfold create_skills_taxonomy_entry
      rw [hnone]
    have hfind2 : (store ++ [mk_taxonomy_row id1 d]).find?
        (fun r => r.skill_name == d.skill_name) = some (mk_taxonomy_row id1 d) := by
      rw [List.find?_append, hnone]
      simp [mk_taxonomy_row]
    refine ⟨?_, ?_, ?_⟩
    · rw [hstep1]
      unfold create_skills_taxonomy_entry
      rw [hfind2]
    · rw [hstep1]
      unfold create_skills_taxonomy_entry
      rw [hfind2]
    · rw [hstep1, List.countP_append]
      have hzero : store.countP (fun r => r.skill_name == d.skill_name) = 0 := by
        rw [List.countP_eq_zero]
        intro x hx
        simpa using habs x hx
      rw [hzero]
      simp [mk_taxonomy_row]

/-- Witness for `create_taxonomy_idempotent` at a concrete input. -/
theorem create_taxonomy_idempotent_witness :
    (create_skills_taxonomy_entry
        ((create_skills_taxonomy_entry [] "id1" taxEx).1) "id2" taxEx).1 =
      (create_skills_taxonomy_entry [] "id1" taxEx).1 ∧
    (create_skills_taxonomy_entry
        ((create_skills_taxonomy_entry [] "id1" taxEx).1) "id2" taxEx).2 =
      some (mk_taxonomy_row "id1" taxEx) ∧
    ((create_skills_taxonomy_entry [] "id1" taxEx).1.countP
        (fun r => r.skill_name == taxEx.skill_name)) = 1 :=
  create_taxonomy_idempotent.2 [] taxEx "id1" "id2" (by simp)

end LearnAgent
